import Mathlib

/-!
Shallow embedding of `src/components/gravity_direction.rs`.

The Rust file defines one component type, `GravityDirection(pub Vector)`,
where `Vector` is the crate's math vector: a 2-component `f32` vector when
the crate is built with the `2d` feature, a 3-component `f32` vector with
the `3d` feature.  The two builds are mutually exclusive, so they are
embedded as two separate developments, namespaces `TwoD` and `ThreeD`.

The code performs no arithmetic on the scalar components: every operation
only stores scalar values and reads them back.  The scalar `f32` is
therefore modelled by an arbitrary type parameter `F`; every IEEE-754
bit pattern (finite, infinite, or NaN) is covered by instantiating `F`
accordingly, and the data-movement behaviour of the code is captured
exactly.  Rust's `&mut self` methods are embedded as explicit
state-passing functions `GravityDirection F → ... → GravityDirection F`.
`impl Into<Vector>` arguments are embedded as the already-converted
native vector; the conversion itself belongs to the external math
library.
-/

namespace TwoD

/-- The 2-component vector of the `2d` build (`crate::math::Vector`),
with `f32` components modelled by the type parameter `F`. -/
structure Vector (F : Type) where
  x : F
  y : F
deriving DecidableEq

/-- Vector construction from explicit components (`Vector::new(x, y)`). -/
def Vector.new {F : Type} (x y : F) : Vector F :=
  ⟨x, y⟩

/-- The component `pub struct GravityDirection(pub Vector)`; the field
`v0` is the tuple field `.0`. -/
structure GravityDirection (F : Type) where
  v0 : Vector F
deriving DecidableEq

namespace GravityDirection

/-- Read access: the `Deref` derive lets the wrapper be read as its inner
vector, `*g = g.0`. -/
def deref {F : Type} (s : GravityDirection F) : Vector F :=
  s.v0

/-- Default construction (`#[derive(Default)]`): the inner vector
defaults to the zero vector. -/
def mkDefault (F : Type) [Zero F] : GravityDirection F :=
  ⟨⟨0, 0⟩⟩

/-- Constructor `GravityDirection::new(vec: impl Into<Vector>)`,
embedded at the already-converted vector. -/
def new {F : Type} (vec : Vector F) : GravityDirection F :=
  ⟨vec⟩

/-- Constructor `GravityDirection::from_xy(x, y)` (2d build). -/
def from_xy {F : Type} (x y : F) : GravityDirection F :=
  ⟨Vector.new x y⟩

/-- Setter `GravityDirection::set(&mut self, vec: impl Into<Vector>)`:
`self.0 = vec.into()`. -/
def set {F : Type} (s : GravityDirection F) (vec : Vector F) : GravityDirection F :=
  { s with v0 := vec }

/-- Setter `GravityDirection::set_xy(&mut self, x, y)` (2d build):
`self.0.x = x; self.0.y = y;` as two sequential field updates. -/
def set_xy {F : Type} (s : GravityDirection F) (x y : F) : GravityDirection F :=
  { s with v0 := { { s.v0 with x := x } with y := y } }

/-- Setter `GravityDirection::set_x(&mut self, x)`: `self.0.x = x;`. -/
def set_x {F : Type} (s : GravityDirection F) (x : F) : GravityDirection F :=
  { s with v0 := { s.v0 with x := x } }

/-- Setter `GravityDirection::set_y(&mut self, y)`: `self.0.y = y;`. -/
def set_y {F : Type} (s : GravityDirection F) (y : F) : GravityDirection F :=
  { s with v0 := { s.v0 with y := y } }

end GravityDirection

/-- One call to any of the mutating methods available in the 2d build. -/
inductive SetterOp (F : Type) where
  | set (vec : Vector F)
  | set_xy (x y : F)
  | set_x (x : F)
  | set_y (y : F)
deriving DecidableEq

/-- Apply one setter call to a state. -/
def applyOp {F : Type} (s : GravityDirection F) : SetterOp F → GravityDirection F
  | .set vec => s.set vec
  | .set_xy x y => s.set_xy x y
  | .set_x x => s.set_x x
  | .set_y y => s.set_y y

/-- Apply a finite sequence of setter calls, left to right. -/
def applyOps {F : Type} (s : GravityDirection F) (ops : List (SetterOp F)) : GravityDirection F :=
  ops.foldl applyOp s

/-- The value an op writes to the `x` axis, if it writes that axis. -/
def writesX {F : Type} : SetterOp F → Option F
  | .set vec => some vec.x
  | .set_xy x _ => some x
  | .set_x x => some x
  | .set_y _ => none

/-- The value an op writes to the `y` axis, if it writes that axis. -/
def writesY {F : Type} : SetterOp F → Option F
  | .set vec => some vec.y
  | .set_xy _ y => some y
  | .set_x _ => none
  | .set_y y => some y

/-- The last value written to an axis by a sequence of ops, starting
from the axis's initial value (reference definition of last-write-wins). -/
def lastWrite {F : Type} (w : SetterOp F → Option F) (init : F)
    (ops : List (SetterOp F)) : F :=
  ops.foldl (fun acc op => (w op).getD acc) init

theorem applyOps2_deref_x {F : Type} (s : GravityDirection F) (ops : List (SetterOp F)) :
    (applyOps s ops).deref.x = lastWrite writesX s.deref.x ops := by
  induction ops generalizing s with
  | nil => rfl
  | cons op rest ih =>
      cases op <;>
        simp [applyOps, lastWrite, applyOp, writesX, GravityDirection.set,
          GravityDirection.set_xy, GravityDirection.set_x, GravityDirection.set_y,
          GravityDirection.deref] at ih ⊢ <;>
        exact ih _

theorem applyOps2_deref_y {F : Type} (s : GravityDirection F) (ops : List (SetterOp F)) :
    (applyOps s ops).deref.y = lastWrite writesY s.deref.y ops := by
  induction ops generalizing s with
  | nil => rfl
  | cons op rest ih =>
      cases op <;>
        simp [applyOps, lastWrite, applyOp, writesY, GravityDirection.set,
          GravityDirection.set_xy, GravityDirection.set_x, GravityDirection.set_y,
          GravityDirection.deref] at ih ⊢ <;>
        exact ih _

end TwoD

namespace ThreeD

/-- The 3-component vector of the `3d` build (`crate::math::Vector`),
with `f32` components modelled by the type parameter `F`. -/
structure Vector (F : Type) where
  x : F
  y : F
  z : F
deriving DecidableEq

/-- Vector construction from explicit components (`Vector::new(x, y, z)`). -/
def Vector.new {F : Type} (x y z : F) : Vector F :=
  ⟨x, y, z⟩

/-- The component `pub struct GravityDirection(pub Vector)`; the field
`v0` is the tuple field `.0`. -/
structure GravityDirection (F : Type) where
  v0 : Vector F
deriving DecidableEq

namespace GravityDirection

/-- Read access: the `Deref` derive lets the wrapper be read as its inner
vector, `*g = g.0`. -/
def deref {F : Type} (s : GravityDirection F) : Vector F :=
  s.v0

/-- Default construction (`#[derive(Default)]`): the inner vector
defaults to the zero vector. -/
def mkDefault (F : Type) [Zero F] : GravityDirection F :=
  ⟨⟨0, 0, 0⟩⟩

/-- Constructor `GravityDirection::new(vec: impl Into<Vector>)`,
embedded at the already-converted vector. -/
def new {F : Type} (vec : Vector F) : GravityDirection F :=
  ⟨vec⟩

/-- Constructor `GravityDirection::from_xyz(x, y, z)` (3d build). -/
def from_xyz {F : Type} (x y z : F) : GravityDirection F :=
  ⟨Vector.new x y z⟩

/-- Setter `GravityDirection::set(&mut self, vec: impl Into<Vector>)`:
`self.0 = vec.into()`. -/
def set {F : Type} (s : GravityDirection F) (vec : Vector F) : GravityDirection F :=
  { s with v0 := vec }

/-- Setter `GravityDirection::set_xyz(&mut self, x, y, z)` (3d build):
`self.0.x = x; self.0.y = y; self.0.z = z;` as three sequential field
updates. -/
def set_xyz {F : Type} (s : GravityDirection F) (x y z : F) : GravityDirection F :=
  { s with v0 := { { { s.v0 with x := x } with y := y } with z := z } }

/-- Setter `GravityDirection::set_x(&mut self, x)`: `self.0.x = x;`. -/
def set_x {F : Type} (s : GravityDirection F) (x : F) : GravityDirection F :=
  { s with v0 := { s.v0 with x := x } }

/-- Setter `GravityDirection::set_y(&mut self, y)`: `self.0.y = y;`. -/
def set_y {F : Type} (s : GravityDirection F) (y : F) : GravityDirection F :=
  { s with v0 := { s.v0 with y := y } }

/-- Setter `GravityDirection::set_z(&mut self, z)`: `self.0.z = z;`. -/
def set_z {F : Type} (s : GravityDirection F) (z : F) : GravityDirection F :=
  { s with v0 := { s.v0 with z := z } }

end GravityDirection

/-- One call to any of the mutating methods available in the 3d build. -/
inductive SetterOp (F : Type) where
  | set (vec : Vector F)
  | set_xyz (x y z : F)
  | set_x (x : F)
  | set_y (y : F)
  | set_z (z : F)
deriving DecidableEq

/-- Apply one setter call to a state. -/
def applyOp {F : Type} (s : GravityDirection F) : SetterOp F → GravityDirection F
  | .set vec => s.set vec
  | .set_xyz x y z => s.set_xyz x y z
  | .set_x x => s.set_x x
  | .set_y y => s.set_y y
  | .set_z z => s.set_z z

/-- Apply a finite sequence of setter calls, left to right. -/
def applyOps {F : Type} (s : GravityDirection F) (ops : List (SetterOp F)) : GravityDirection F :=
  ops.foldl applyOp s

/-- The value an op writes to the `x` axis, if it writes that axis. -/
def writesX {F : Type} : SetterOp F → Option F
  | .set vec => some vec.x
  | .set_xyz x _ _ => some x
  | .set_x x => some x
  | .set_y _ => none
  | .set_z _ => none

/-- The value an op writes to the `y` axis, if it writes that axis. -/
def writesY {F : Type} : SetterOp F → Option F
  | .set vec => some vec.y
  | .set_xyz _ y _ => some y
  | .set_x _ => none
  | .set_y y => some y
  | .set_z _ => none

/-- The value an op writes to the `z` axis, if it writes that axis. -/
def writesZ {F : Type} : SetterOp F → Option F
  | .set vec => some vec.z
  | .set_xyz _ _ z => some z
  | .set_x _ => none
  | .set_y _ => none
  | .set_z z => some z

/-- The last value written to an axis by a sequence of ops, starting
from the axis's initial value (reference definition of last-write-wins). -/
def lastWrite {F : Type} (w : SetterOp F → Option F) (init : F)
    (ops : List (SetterOp F)) : F :=
  ops.foldl (fun acc op => (w op).getD acc) init

theorem applyOps3_deref_x {F : Type} (s : GravityDirection F) (ops : List (SetterOp F)) :
    (applyOps s ops).deref.x = lastWrite writesX s.deref.x ops := by
  induction ops generalizing s with
  | nil => rfl
  | cons op rest ih =>
      cases op <;>
        simp [applyOps, lastWrite, applyOp, writesX, GravityDirection.set,
          GravityDirection.set_xyz, GravityDirection.set_x, GravityDirection.set_y,
          GravityDirection.set_z, GravityDirection.deref] at ih ⊢ <;>
        exact ih _

theorem applyOps3_deref_y {F : Type} (s : GravityDirection F) (ops : List (SetterOp F)) :
    (applyOps s ops).deref.y = lastWrite writesY s.deref.y ops := by
  induction ops generalizing s with
  | nil => rfl
  | cons op rest ih =>
      cases op <;>
        simp [applyOps, lastWrite, applyOp, writesY, GravityDirection.set,
          GravityDirection.set_xyz, GravityDirection.set_x, GravityDirection.set_y,
          GravityDirection.set_z, GravityDirection.deref] at ih ⊢ <;>
        exact ih _

theorem applyOps3_deref_z {F : Type} (s : GravityDirection F) (ops : List (SetterOp F)) :
    (applyOps s ops).deref.z = lastWrite writesZ s.deref.z ops := by
  induction ops generalizing s with
  | nil => rfl
  | cons op rest ih =>
      cases op <;>
        simp [applyOps, lastWrite, applyOp, writesZ, GravityDirection.set,
          GravityDirection.set_xyz, GravityDirection.set_x, GravityDirection.set_y,
          GravityDirection.set_z, GravityDirection.deref] at ih ⊢ <;>
        exact ih _

end ThreeD

/-- C1: for every state and every scalar value, each single-axis setter
(`set_x`, `set_y`, and in the 3d build `set_z`) replaces only the named
axis with the given value and leaves every other axis of the stored
vector unchanged from its prior value, in both the 2d and 3d builds. -/
theorem c1_single_axis_setters (F : Type) (s2 : TwoD.GravityDirection F)
    (s3 : ThreeD.GravityDirection F) (a : F) :
    ((s2.set_x a).deref.x = a ∧ (s2.set_x a).deref.y = s2.deref.y) ∧
    ((s2.set_y a).deref.y = a ∧ (s2.set_y a).deref.x = s2.deref.x) ∧
    ((s3.set_x a).deref.x = a ∧ (s3.set_x a).deref.y = s3.deref.y ∧
      (s3.set_x a).deref.z = s3.deref.z) ∧
    ((s3.set_y a).deref.y = a ∧ (s3.set_y a).deref.x = s3.deref.x ∧
      (s3.set_y a).deref.z = s3.deref.z) ∧
    ((s3.set_z a).deref.z = a ∧ (s3.set_z a).deref.x = s3.deref.x ∧
      (s3.set_z a).deref.y = s3.deref.y) :=
  ⟨⟨rfl, rfl⟩, ⟨rfl, rfl⟩, ⟨rfl, rfl, rfl⟩, ⟨rfl, rfl, rfl⟩, ⟨rfl, rfl, rfl⟩⟩

/-- C2: for every starting state and every finite sequence of setter
calls, reading each axis afterwards yields exactly the value of the last
write that touched that axis, or the starting value if no call touched
it; the state is nothing but the stored vector, so no hidden state can
influence the read. Stated for both builds. -/
theorem c2_last_write_wins (F : Type) (s2 : TwoD.GravityDirection F)
    (ops2 : List (TwoD.SetterOp F)) (s3 : ThreeD.GravityDirection F)
    (ops3 : List (ThreeD.SetterOp F)) :
    (TwoD.applyOps s2 ops2).deref.x = TwoD.lastWrite TwoD.writesX s2.deref.x ops2 ∧
    (TwoD.applyOps s2 ops2).deref.y = TwoD.lastWrite TwoD.writesY s2.deref.y ops2 ∧
    (ThreeD.applyOps s3 ops3).deref.x = ThreeD.lastWrite ThreeD.writesX s3.deref.x ops3 ∧
    (ThreeD.applyOps s3 ops3).deref.y = ThreeD.lastWrite ThreeD.writesY s3.deref.y ops3 ∧
    (ThreeD.applyOps s3 ops3).deref.z = ThreeD.lastWrite ThreeD.writesZ s3.deref.z ops3 :=
  ⟨TwoD.applyOps2_deref_x s2 ops2, TwoD.applyOps2_deref_y s2 ops2,
    ThreeD.applyOps3_deref_x s3 ops3, ThreeD.applyOps3_deref_y s3 ops3,
    ThreeD.applyOps3_deref_z s3 ops3⟩

/-- C3: for all scalar values `x, y` (and `z` in the 3d build) — hence in
particular for all finite floating-point values — constructing via
`from_xy` (2d) respectively `from_xyz` (3d) and then reading the vector
yields exactly `(x, y)` respectively `(x, y, z)`. -/
theorem c3_explicit_axis_constructors (F : Type) (x y z : F) :
    (TwoD.GravityDirection.from_xy x y).deref.x = x ∧
    (TwoD.GravityDirection.from_xy x y).deref.y = y ∧
    (ThreeD.GravityDirection.from_xyz x y z).deref.x = x ∧
    (ThreeD.GravityDirection.from_xyz x y z).deref.y = y ∧
    (ThreeD.GravityDirection.from_xyz x y z).deref.z = z :=
  ⟨rfl, rfl, rfl, rfl, rfl⟩

/-- C4: default construction yields the zero vector: every available
axis reads as zero, in both the 2d build (axes x, y) and the 3d build
(axes x, y, z). -/
theorem c4_default_is_zero (F : Type) [Zero F] :
    (TwoD.GravityDirection.mkDefault F).deref.x = 0 ∧
    (TwoD.GravityDirection.mkDefault F).deref.y = 0 ∧
    (ThreeD.GravityDirection.mkDefault F).deref.x = 0 ∧
    (ThreeD.GravityDirection.mkDefault F).deref.y = 0 ∧
    (ThreeD.GravityDirection.mkDefault F).deref.z = 0 :=
  ⟨rfl, rfl, rfl, rfl, rfl⟩

/-- C5: for every state and every vector-convertible value `a` (modelled
by an arbitrary source type together with an arbitrary total conversion
to the native vector, mirroring `impl Into<Vector>`), calling `set` and
then reading yields exactly the converted form of `a`, regardless of the
prior state. Stated for both builds. -/
theorem c5_set_whole_vector (F A2 A3 : Type) (conv2 : A2 → TwoD.Vector F)
    (conv3 : A3 → ThreeD.Vector F) (s2 : TwoD.GravityDirection F)
    (s3 : ThreeD.GravityDirection F) (a2 : A2) (a3 : A3) :
    (s2.set (conv2 a2)).deref = conv2 a2 ∧ (s3.set (conv3 a3)).deref = conv3 a3 :=
  ⟨rfl, rfl⟩

/-- C6: for every state, the combined setter (`set_xy` in the 2d build,
`set_xyz` in the 3d build) overwrites exactly the named axes with the
given values; since the named axes are all axes of the stored vector in
each build, no other component of the state is modified, which the
whole-vector equalities express. -/
theorem c6_combined_setter (F : Type) (s2 : TwoD.GravityDirection F)
    (s3 : ThreeD.GravityDirection F) (x y z : F) :
    (s2.set_xy x y).deref.x = x ∧ (s2.set_xy x y).deref.y = y ∧
    (s2.set_xy x y).deref = TwoD.Vector.new x y ∧
    (s3.set_xyz x y z).deref.x = x ∧ (s3.set_xyz x y z).deref.y = y ∧
    (s3.set_xyz x y z).deref.z = z ∧
    (s3.set_xyz x y z).deref = ThreeD.Vector.new x y z :=
  ⟨rfl, rfl, rfl, rfl, rfl, rfl, rfl⟩

/-- C7: every operation is total over its scalar inputs. The embedding
returns plain values everywhere — no Option, Except, or error variant —
mirroring the source, which has no panic, unwrap, Result, or thrown
error on any path; and the scalar type is arbitrary, so every IEEE-754
input, NaN and infinities included, is covered. Formally: default
construction, both explicit-axis constructors, `new`, and every finite
sequence of setter calls from any state produce a state whose read is a
defined vector, in both builds. -/
theorem c7_operations_total (F : Type) [Zero F] (x y z : F)
    (vec2 : TwoD.Vector F) (vec3 : ThreeD.Vector F)
    (s2 : TwoD.GravityDirection F) (ops2 : List (TwoD.SetterOp F))
    (s3 : ThreeD.GravityDirection F) (ops3 : List (ThreeD.SetterOp F)) :
    (∃ r, (TwoD.GravityDirection.mkDefault F).deref = r) ∧
    (∃ r, (TwoD.GravityDirection.new vec2).deref = r) ∧
    (∃ r, (TwoD.GravityDirection.from_xy x y).deref = r) ∧
    (∃ r, (TwoD.applyOps s2 ops2).deref = r) ∧
    (∃ r, (ThreeD.GravityDirection.mkDefault F).deref = r) ∧
    (∃ r, (ThreeD.GravityDirection.new vec3).deref = r) ∧
    (∃ r, (ThreeD.GravityDirection.from_xyz x y z).deref = r) ∧
    (∃ r, (ThreeD.applyOps s3 ops3).deref = r) :=
  ⟨⟨_, rfl⟩, ⟨_, rfl⟩, ⟨_, rfl⟩, ⟨_, rfl⟩, ⟨_, rfl⟩, ⟨_, rfl⟩, ⟨_, rfl⟩, ⟨_, rfl⟩⟩

/-- C8: 2d-build scenario at exact scalar values (instantiating the
scalar at `Rat`; the values 0, 3, 1, −1 are exactly representable as
f32, and the code moves them unchanged): default construction reads as
(0, 0); then `set_x 3` makes the read yield (3, 0); then `set_xy 1 (−1)`
makes the read yield (1, −1). -/
theorem c8_scenario_2d :
    (TwoD.GravityDirection.mkDefault Rat).deref = TwoD.Vector.new 0 0 ∧
    ((TwoD.GravityDirection.mkDefault Rat).set_x 3).deref = TwoD.Vector.new 3 0 ∧
    (((TwoD.GravityDirection.mkDefault Rat).set_x 3).set_xy 1 (-1)).deref
      = TwoD.Vector.new 1 (-1) :=
  ⟨rfl, rfl, rfl⟩

/-- C9: 3d-build scenario at exact scalar values (instantiating the
scalar at `Rat`; the stored bit pattern for −9.8 flows through the code
unchanged, which the exact value −49/5 models): `from_xyz 0 (−9.8) 0`
reads back exactly those three values; then `set_z 5` makes the read
yield (0, −9.8, 5). -/
theorem c9_scenario_3d :
    (ThreeD.GravityDirection.from_xyz (0 : Rat) (-9.8) 0).deref
      = ThreeD.Vector.new 0 (-9.8) 0 ∧
    ((ThreeD.GravityDirection.from_xyz (0 : Rat) (-9.8) 0).set_z 5).deref
      = ThreeD.Vector.new 0 (-9.8) 5 :=
  ⟨rfl, rfl⟩

/-- C10: for every state and all scalar values, the combined setter is
the composition of the single-axis setters: in the 2d build
`set_xy x y` equals `set_x x` followed by `set_y y`, and in the 3d build
`set_xyz x y z` equals `set_x x` followed by `set_y y` followed by
`set_z z`, as an equality of final states. -/
theorem c10_combined_equals_composed (F : Type) (s2 : TwoD.GravityDirection F)
    (s3 : ThreeD.GravityDirection F) (x y z : F) :
    s2.set_xy x y = (s2.set_x x).set_y y ∧
    s3.set_xyz x y z = ((s3.set_x x).set_y y).set_z z :=
  ⟨rfl, rfl⟩
